import Mathlib

/-!
Verification of the runtime type information (rtti) module of the sixtyfps
runtime core library (`sixtyfps_runtime/corelib/rtti.rs`): the type-erasure
bridge that lets dynamically-typed callers read, write, bind and animate
strongly-typed reactive properties stored at fixed offsets inside item
structures.

The module itself (the `PropertyInfo` impl for `FieldOffset`, the
`MaybeAnimatedPropertyInfoWrapper` impl, `AnimatedBindingKind`,
`FieldInfo::set_field`, and the `ValueType` trait) is translated directly
from the source.  Its external collaborators — the reactive property cell
(`crate::Property<T>`), the field-offset descriptor from the
`const_field_offset` crate, and the animation descriptor types — are not part
of this module's source and are modelled from the specification's
description of the interface the core consumes.
-/

namespace Rtti

/-- Modelled from the spec: `crate::items::PropertyAnimation`, an opaque
animation-curve descriptor, "passed through unexamined" by this module. -/
structure PropertyAnimation where
  id : Nat
deriving DecidableEq, Repr

/-- Modelled from the spec: `crate::animations::Instant`, an opaque start-time
value produced by a transition supplier, passed through unexamined. -/
structure Instant where
  millis : Nat
deriving DecidableEq, Repr

/-- Outcome of running a closure that may panic (Rust `expect`): either a
fatal panic carrying the panic message, or a normal result. -/
inductive PanicOr (T : Type) where
  | panic (msg : String) : PanicOr T
  | ok (val : T) : PanicOr T

/-- `AnimatedBindingKind`: what kind of animation is on a binding
(rtti.rs lines 45-52).  `Transition` carries a closure producing a
`(PropertyAnimation, Instant)` pair each time the binding reactivates. -/
inductive AnimatedBindingKind where
  | NotAnimated : AnimatedBindingKind
  | Animation (a : PropertyAnimation) : AnimatedBindingKind
  | Transition (tr : Unit → PropertyAnimation × Instant) : AnimatedBindingKind

/-- `AnimatedBindingKind::as_animation` (rtti.rs lines 56-62): return the
`PropertyAnimation` if `self` contains `AnimatedBindingKind::Animation`. -/
def AnimatedBindingKind.as_animation : AnimatedBindingKind → Option PropertyAnimation
  | AnimatedBindingKind.NotAnimated => none
  | AnimatedBindingKind.Animation a => some a
  | AnimatedBindingKind.Transition _ => none

/-- Modelled from the spec: the state of a reactive property cell
(`crate::Property<T>`, an external collaborator "consumed not owned": it
"holds a concrete value, a dependency set, and an optional current binding
closure; supports plain set, animated set, plain bind, animated bind,
transition bind").  Each constructor records the cell contents after the
corresponding cell operation; installed binding closures may panic when
invoked, which `PanicOr` captures. -/
inductive CellState (T : Type) where
  | value (v : T) : CellState T
  | binding (b : Unit → PanicOr T) : CellState T
  | animatedValue (v : T) (a : PropertyAnimation) : CellState T
  | animatedBinding (b : Unit → PanicOr T) (a : PropertyAnimation) : CellState T
  | transitionBinding (b : Unit → PanicOr T)
      (tr : Unit → PropertyAnimation × Instant) : CellState T

/-- Modelled from the spec: `Property::set` — plain instantaneous write. -/
def CellState.set {T : Type} (_c : CellState T) (v : T) : CellState T :=
  CellState.value v

/-- Modelled from the spec: `Property::set_binding` — install a binding
closure, replacing the current contents. -/
def CellState.set_binding {T : Type} (_c : CellState T) (b : Unit → PanicOr T) :
    CellState T :=
  CellState.binding b

/-- Modelled from the spec: `Property::set_animated_value` — a value
transition towards `v` along the curve `a`. -/
def CellState.set_animated_value {T : Type} (_c : CellState T) (v : T)
    (a : PropertyAnimation) : CellState T :=
  CellState.animatedValue v a

/-- Modelled from the spec: `Property::set_animated_binding` — install a
binding together with a fixed animation curve. -/
def CellState.set_animated_binding {T : Type} (_c : CellState T)
    (b : Unit → PanicOr T) (a : PropertyAnimation) : CellState T :=
  CellState.animatedBinding b a

/-- Modelled from the spec: `Property::set_animated_binding_for_transition` —
install a binding together with a curve/start-time supplier re-evaluated on
every reactivation. -/
def CellState.set_animated_binding_for_transition {T : Type} (_c : CellState T)
    (b : Unit → PanicOr T) (tr : Unit → PropertyAnimation × Instant) :
    CellState T :=
  CellState.transitionBinding b tr

/-- Modelled from the spec: `Property::get` — read the cell's current value,
evaluating the installed binding if one is present (the animation target is
read for animated states; the timing evaluator is out of scope).  Evaluating
an installed binding may panic. -/
def CellState.get {T : Type} : CellState T → PanicOr T
  | CellState.value v => PanicOr.ok v
  | CellState.binding b => b ()
  | CellState.animatedValue v _ => PanicOr.ok v
  | CellState.animatedBinding b _ => b ()
  | CellState.transitionBinding b _ => b ()

/-- Modelled from the spec: the Located Field descriptor
(`const_field_offset::FieldOffset<Item, Property<T>, AllowPin>`): a byte
offset plus the view turning a pinned item reference into the property cell
at that offset (`apply_pin`), here given with an explicit state-update
counterpart and the law that the view reads back what the update wrote. -/
structure FieldOffset (Item : Type) (T : Type) where
  byteOffset : Nat
  applyPin : Item → CellState T
  updateCell : Item → CellState T → Item
  apply_update : ∀ (item : Item) (c : CellState T), applyPin (updateCell item c) = c

/-- The closure installed in the cell by `set_binding`
(rtti.rs lines 131-133 and 190-192, 199-201):
`move || binding().try_into().map_err(|_| ()).expect("binding was of the wrong type")`.
A produced value that fails conversion panics with the `expect` message. -/
def wrapBinding {T Value : Type} (vToT : Value → Option T) (binding : Unit → Value) :
    Unit → PanicOr T :=
  fun u =>
    match vToT (binding u) with
    | some t => PanicOr.ok t
    | none => PanicOr.panic "binding was of the wrong type"

/-- `PropertyInfo::get` for `FieldOffset<Item, Property<T>>`
(rtti.rs lines 106-108): `self.apply_pin(item).get().try_into().map_err(|_| ())`.
The conversion failure is the unit error `Err(())`; a panic from an installed
binding propagates. -/
def FieldOffset.get {Item T Value : Type} (self : FieldOffset Item T)
    (tToV : T → Option Value) (item : Item) : PanicOr (Except Unit Value) :=
  match (self.applyPin item).get with
  | PanicOr.panic m => PanicOr.panic m
  | PanicOr.ok t =>
      PanicOr.ok
        (match tToV t with
        | some v => Except.ok v
        | none => Except.error ())

/-- `PropertyInfo::set` for `FieldOffset<Item, Property<T>>`
(rtti.rs lines 109-121): any supplied animation descriptor is rejected with
`Err(())`; otherwise the value is converted (failure is `Err(())`) and
written to the cell.  Returns the Rust `Result<(), ()>` together with the
updated item. -/
def FieldOffset.set {Item T Value : Type} (self : FieldOffset Item T)
    (vToT : Value → Option T) (item : Item) (value : Value)
    (animation : Option PropertyAnimation) : Except Unit Unit × Item :=
  match animation with
  | some _ => (Except.error (), item)
  | none =>
      match vToT value with
      | some t => (Except.ok (), self.updateCell item ((self.applyPin item).set t))
      | none => (Except.error (), item)

/-- `PropertyInfo::set_binding` for `FieldOffset<Item, Property<T>>`
(rtti.rs lines 122-136): any descriptor other than `NotAnimated` is rejected
with `Err(())`; otherwise the wrapped (panicking-on-misconversion) closure is
installed in the cell and the call succeeds. -/
def FieldOffset.set_binding {Item T Value : Type} (self : FieldOffset Item T)
    (vToT : Value → Option T) (item : Item) (binding : Unit → Value)
    (animation : AnimatedBindingKind) : Except Unit Unit × Item :=
  match animation with
  | AnimatedBindingKind.NotAnimated =>
      (Except.ok (),
        self.updateCell item ((self.applyPin item).set_binding (wrapBinding vToT binding)))
  | _ => (Except.error (), item)

/-- `PropertyInfo::offset` for `FieldOffset<Item, Property<T>>`
(rtti.rs lines 137-139): `self.get_byte_offset()`. -/
def FieldOffset.offset {Item T : Type} (self : FieldOffset Item T) : Nat :=
  self.byteOffset

/-- Modelled from the spec: the marker capability
`crate::properties::InterpolatedPropertyValue` gating the animation-capable
accessor — "a concrete type's ability to be animated between two values along
a curve".  Its member is unused by the rtti module itself. -/
structure InterpolatedPropertyValue (T : Type) where
  interpolate : T → T → Rat → T

/-- `MaybeAnimatedPropertyInfoWrapper` (rtti.rs line 153): a wrapper for a
field offset that optionally implements `PropertyInfo` through the auto-deref
specialization trick; field `fo` is the Rust `.0`. -/
structure MaybeAnimatedPropertyInfoWrapper (Item : Type) (T : Type) where
  fo : FieldOffset Item T

/-- `PropertyInfo::get` for `MaybeAnimatedPropertyInfoWrapper`
(rtti.rs lines 162-164): `self.0.get(item)`. -/
def MaybeAnimatedPropertyInfoWrapper.get {Item T Value : Type}
    (self : MaybeAnimatedPropertyInfoWrapper Item T)
    (_ip : InterpolatedPropertyValue T) (tToV : T → Option Value) (item : Item) :
    PanicOr (Except Unit Value) :=
  self.fo.get tToV item

/-- `PropertyInfo::set` for `MaybeAnimatedPropertyInfoWrapper`
(rtti.rs lines 165-177): with `Some(animation)` the converted value is
written via `set_animated_value` (conversion failure is `Err(())`); with
`None` it delegates to the plain `self.0.set(item, value, None)`. -/
def MaybeAnimatedPropertyInfoWrapper.set {Item T Value : Type}
    (self : MaybeAnimatedPropertyInfoWrapper Item T)
    (_ip : InterpolatedPropertyValue T) (vToT : Value → Option T) (item : Item)
    (value : Value) (animation : Option PropertyAnimation) :
    Except Unit Unit × Item :=
  match animation with
  | some a =>
      match vToT value with
      | some t =>
          (Except.ok (),
            self.fo.updateCell item ((self.fo.applyPin item).set_animated_value t a))
      | none => (Except.error (), item)
  | none => self.fo.set vToT item value none

/-- `PropertyInfo::set_binding` for `MaybeAnimatedPropertyInfoWrapper`
(rtti.rs lines 178-207): dispatches on the descriptor — `NotAnimated`
delegates to the plain attach, `Animation` installs the wrapped closure with
the fixed curve via `set_animated_binding`, `Transition` installs it with the
supplier via `set_animated_binding_for_transition`; the latter two always
return `Ok(())`. -/
def MaybeAnimatedPropertyInfoWrapper.set_binding {Item T Value : Type}
    (self : MaybeAnimatedPropertyInfoWrapper Item T)
    (_ip : InterpolatedPropertyValue T) (vToT : Value → Option T) (item : Item)
    (binding : Unit → Value) (animation : AnimatedBindingKind) :
    Except Unit Unit × Item :=
  match animation with
  | AnimatedBindingKind.NotAnimated =>
      self.fo.set_binding vToT item binding AnimatedBindingKind.NotAnimated
  | AnimatedBindingKind.Animation a =>
      (Except.ok (),
        self.fo.updateCell item
          ((self.fo.applyPin item).set_animated_binding (wrapBinding vToT binding) a))
  | AnimatedBindingKind.Transition tr =>
      (Except.ok (),
        self.fo.updateCell item
          ((self.fo.applyPin item).set_animated_binding_for_transition
            (wrapBinding vToT binding) tr))

/-- `PropertyInfo::offset` for `MaybeAnimatedPropertyInfoWrapper`
(rtti.rs lines 208-210): `self.get_byte_offset()` of the wrapped offset. -/
def MaybeAnimatedPropertyInfoWrapper.offset {Item T : Type}
    (self : MaybeAnimatedPropertyInfoWrapper Item T)
    (_ip : InterpolatedPropertyValue T) : Nat :=
  self.fo.byteOffset

/-- Modelled from the spec: the Located Field descriptor for a plain
(non-reactive) field, `const_field_offset::FieldOffset<Item, T>` used by
`FieldInfo`: byte offset, the mutable view `apply_mut` split into read and
write halves, with the read-back law. -/
structure FieldOffsetPlain (Item : Type) (T : Type) where
  byteOffset : Nat
  read : Item → T
  write : Item → T → Item
  read_write : ∀ (item : Item) (t : T), read (write item t) = t

/-- `FieldInfo::set_field` for `FieldOffset<Item, T>` (rtti.rs lines 230-233):
`*self.apply_mut(item) = value.try_into().map_err(|_| ())?; Ok(())` — the
dynamic value is converted (failure returns `Err(())` before the write) and
overwrites the field. -/
def FieldOffsetPlain.set_field {Item T Value : Type} (self : FieldOffsetPlain Item T)
    (vToT : Value → Option T) (item : Item) (value : Value) :
    Except Unit Unit × Item :=
  match vToT value with
  | some t => (Except.ok (), self.write item t)
  | none => (Except.error (), item)

/-- Modelled from the spec: `crate::SharedString`, the immutable text value. -/
structure SharedString where
  text : String
deriving DecidableEq

/-- Modelled from the spec: `crate::Resource`, an opaque resource handle. -/
structure Resource where
  handle : Nat
deriving DecidableEq

/-- Modelled from the spec: `crate::Color`. -/
structure Color where
  argb : Nat
deriving DecidableEq

/-- Modelled from the spec: `crate::PathData`, vector path data. -/
structure PathData where
  points : List (Int × Int)
deriving DecidableEq

/-- Modelled from the spec: `crate::animations::EasingCurve`, an easing curve
descriptor. -/
inductive EasingCurve where
  | linear : EasingCurve
  | cubicBezier (a b c d : Rat) : EasingCurve
deriving DecidableEq

/-- Modelled from the spec: `crate::items::TextHorizontalAlignment`. -/
inductive TextHorizontalAlignment where
  | left : TextHorizontalAlignment
  | center : TextHorizontalAlignment
  | right : TextHorizontalAlignment
deriving DecidableEq

/-- Modelled from the spec: `crate::items::TextVerticalAlignment`. -/
inductive TextVerticalAlignment where
  | top : TextVerticalAlignment
  | center : TextVerticalAlignment
  | bottom : TextVerticalAlignment
deriving DecidableEq

/-- Modelled from the spec: `crate::model::StandardListViewItem`, the
list-row record. -/
structure StandardListViewItem where
  text : SharedString
deriving DecidableEq

/-- Modelled from the spec: `crate::items::ImageFit`. -/
inductive ImageFit where
  | fill : ImageFit
  | contain : ImageFit
deriving DecidableEq

/-- Modelled from the spec: a floating-point field value, kept abstract as a
rational (no floating-point semantics are relied on by this module). -/
structure FloatValue where
  val : Rat
deriving DecidableEq

/-- The sixteen concrete field types listed in the `declare_ValueType!`
invocation (rtti.rs lines 25-42): bool, u32, u64, i32, i64, f32, f64,
SharedString, Resource, Color, PathData, EasingCurve,
TextHorizontalAlignment, TextVerticalAlignment, StandardListViewItem,
ImageFit. -/
inductive ConcreteTy where
  | bool : ConcreteTy
  | u32 : ConcreteTy
  | u64 : ConcreteTy
  | i32 : ConcreteTy
  | i64 : ConcreteTy
  | f32 : ConcreteTy
  | f64 : ConcreteTy
  | sharedString : ConcreteTy
  | resource : ConcreteTy
  | color : ConcreteTy
  | pathData : ConcreteTy
  | easingCurve : ConcreteTy
  | textHorizontalAlignment : ConcreteTy
  | textVerticalAlignment : ConcreteTy
  | standardListViewItem : ConcreteTy
  | imageFit : ConcreteTy
deriving DecidableEq, Repr

/-- The model type each concrete field type token denotes. -/
def ConcreteTy.interp : ConcreteTy → Type
  | ConcreteTy.bool => Bool
  | ConcreteTy.u32 => Nat
  | ConcreteTy.u64 => Nat
  | ConcreteTy.i32 => Int
  | ConcreteTy.i64 => Int
  | ConcreteTy.f32 => FloatValue
  | ConcreteTy.f64 => FloatValue
  | ConcreteTy.sharedString => SharedString
  | ConcreteTy.resource => Resource
  | ConcreteTy.color => Color
  | ConcreteTy.pathData => PathData
  | ConcreteTy.easingCurve => EasingCurve
  | ConcreteTy.textHorizontalAlignment => TextHorizontalAlignment
  | ConcreteTy.textVerticalAlignment => TextVerticalAlignment
  | ConcreteTy.standardListViewItem => StandardListViewItem
  | ConcreteTy.imageFit => ImageFit

/-- The list of concrete field types exactly as enumerated in the
`declare_ValueType!` invocation (rtti.rs lines 25-42). -/
def declaredConcreteTys : List ConcreteTy :=
  [ConcreteTy.bool, ConcreteTy.u32, ConcreteTy.u64, ConcreteTy.i32,
   ConcreteTy.i64, ConcreteTy.f32, ConcreteTy.f64, ConcreteTy.sharedString,
   ConcreteTy.resource, ConcreteTy.color, ConcreteTy.pathData,
   ConcreteTy.easingCurve, ConcreteTy.textHorizontalAlignment,
   ConcreteTy.textVerticalAlignment, ConcreteTy.standardListViewItem,
   ConcreteTy.imageFit]

/-- The `ValueType` trait produced by `declare_ValueType!` (rtti.rs
lines 20-42): `pub trait ValueType: 'static + TryInto<bool> + TryFrom<bool>
+ ... {}` — an implementor carries a fallible conversion into, and a fallible
conversion from, each of the sixteen concrete field types.  The two
dependent functions bundle the sixteen `TryInto` and sixteen `TryFrom`
bounds. -/
structure ValueType (Value : Type) where
  tryIntoConcrete : (c : ConcreteTy) → Value → Option c.interp
  tryFromConcrete : (c : ConcreteTy) → c.interp → Option Value

/-- Modelled from the spec: the round-trip law's side condition — "declared
convertible" pairs with "none ... declared" lossy: whenever the dynamic
value `v` converts into the concrete value `t`, converting `t` back yields
`v` again.  The conversion implementations live outside this module. -/
def LosslessPair {T Value : Type} (vToT : Value → Option T)
    (tToV : T → Option Value) : Prop :=
  ∀ (v : Value) (t : T), vToT v = some t → tToV t = some v

/-- A one-cell item over `Int` used to evaluate the accessors on concrete
inputs: the item is the cell itself, so the view is the identity. -/
def intItemFO : FieldOffset (CellState Int) Int where
  byteOffset := 0
  applyPin := fun c => c
  updateCell := fun _ c => c
  apply_update := fun _ _ => rfl

/-- A one-cell item over `Nat` used to evaluate the accessors on concrete
inputs. -/
def natItemFO : FieldOffset (CellState Nat) Nat where
  byteOffset := 0
  applyPin := fun c => c
  updateCell := fun _ c => c
  apply_update := fun _ _ => rfl

/-- The animation-capable wrapper around `intItemFO`. -/
def intWrap : MaybeAnimatedPropertyInfoWrapper (CellState Int) Int :=
  MaybeAnimatedPropertyInfoWrapper.mk intItemFO

/-- A concrete interpolation capability for `Int` (linear choice of the start
value; the member is unused by the rtti operations). -/
def intInterp : InterpolatedPropertyValue Int where
  interpolate := fun a _ _ => a

/-- A fallible conversion that can actually fail: a dynamic `Int` into a
concrete `Nat` field, defined only on non-negative inputs. -/
def intToNatConv : Int → Option Nat :=
  fun i => if 0 ≤ i then some i.toNat else none

/-- A single plain (non-reactive) `Nat` field whose item is the field value
itself. -/
def natFieldFO : FieldOffsetPlain Nat Nat where
  byteOffset := 0
  read := fun n => n
  write := fun _ t => t
  read_write := fun _ _ => rfl

/-- A concrete transition supplier used to evaluate `as_animation` and `set`
on a `Transition` descriptor. -/
def transitionSupplier : Unit → PropertyAnimation × Instant :=
  fun _ => (PropertyAnimation.mk 7, Instant.mk 3)

/-- C1: on the plain `PropertyInfo` implementation for a field offset, `set`
returns an error whenever any animation descriptor is supplied, regardless of
the value; `set_binding` returns an error whenever the descriptor is anything
other than `NotAnimated`; with no animation descriptor and a convertible
value `set` succeeds, and with `NotAnimated` `set_binding` succeeds. -/
theorem C1_plain_accessor_animation_policy {Item T Value : Type}
    (self : FieldOffset Item T) (vToT : Value → Option T) (item : Item)
    (value : Value) (binding : Unit → Value) :
    (∀ a : PropertyAnimation,
      (self.set vToT item value (some a)).1 = Except.error ()) ∧
    (∀ k : AnimatedBindingKind, k ≠ AnimatedBindingKind.NotAnimated →
      (self.set_binding vToT item binding k).1 = Except.error ()) ∧
    (∀ t : T, vToT value = some t →
      (self.set vToT item value none).1 = Except.ok ()) ∧
    ((self.set_binding vToT item binding AnimatedBindingKind.NotAnimated).1 =
      Except.ok ()) := by
  refine ⟨fun a => rfl, fun k hk => ?_, fun t ht => ?_, rfl⟩
  · cases k with
    | NotAnimated => exact absurd rfl hk
    | Animation a => rfl
    | Transition tr => rfl
  · simp [FieldOffset.set, ht]

/-- C2: on the animation-capable accessor, `set_binding` dispatches exactly
on the animation descriptor — `NotAnimated` delegates to the plain binding
attach; `Animation a` calls the cell's `set_animated_binding` with the
converting closure and the fixed curve `a`; `Transition tr` calls the cell's
`set_animated_binding_for_transition` with the converting closure and the
supplier `tr`; the `Animation` and `Transition` cases always succeed. -/
theorem C2_animated_set_binding_dispatch {Item T Value : Type}
    (self : MaybeAnimatedPropertyInfoWrapper Item T)
    (ip : InterpolatedPropertyValue T) (vToT : Value → Option T) (item : Item)
    (binding : Unit → Value) :
    (self.set_binding ip vToT item binding AnimatedBindingKind.NotAnimated =
      self.fo.set_binding vToT item binding AnimatedBindingKind.NotAnimated) ∧
    (∀ a : PropertyAnimation,
      self.set_binding ip vToT item binding (AnimatedBindingKind.Animation a) =
        (Except.ok (),
          self.fo.updateCell item
            ((self.fo.applyPin item).set_animated_binding
              (wrapBinding vToT binding) a))) ∧
    (∀ tr : Unit → PropertyAnimation × Instant,
      self.set_binding ip vToT item binding (AnimatedBindingKind.Transition tr) =
        (Except.ok (),
          self.fo.updateCell item
            ((self.fo.applyPin item).set_animated_binding_for_transition
              (wrapBinding vToT binding) tr))) :=
  ⟨rfl, fun _ => rfl, fun _ => rfl⟩

/-- C3: the animation-capable accessor behaves identically to the plain one
for `get`, for `offset`, and for `set` when no animation descriptor is
supplied (the no-animation `set` is the very same instantaneous write through
the same wrapped field offset). -/
theorem C3_wrapper_plain_agreement {Item T Value : Type}
    (self : MaybeAnimatedPropertyInfoWrapper Item T)
    (ip : InterpolatedPropertyValue T) (tToV : T → Option Value)
    (vToT : Value → Option T) (item : Item) (value : Value) :
    (self.get ip tToV item = self.fo.get tToV item) ∧
    (self.offset ip = self.fo.offset) ∧
    (self.set ip vToT item value none = self.fo.set vToT item value none) :=
  ⟨rfl, rfl, rfl⟩

/-- C4: for a conversion pair with no declared lossy cases, a successful
`set v` with no animation followed by `get` returns the dynamic value `v`
itself (which trivially converts back to something equal to `v`). -/
theorem C4_set_get_roundtrip {Item T Value : Type} (self : FieldOffset Item T)
    (vToT : Value → Option T) (tToV : T → Option Value) (item : Item)
    (v : Value) (t : T) (hpair : LosslessPair vToT tToV)
    (hconv : vToT v = some t) :
    (self.set vToT item v none).1 = Except.ok () ∧
    self.get tToV (self.set vToT item v none).2 = PanicOr.ok (Except.ok v) := by
  constructor
  · simp [FieldOffset.set, hconv]
  · simp [FieldOffset.set, FieldOffset.get, hconv, self.apply_update,
      CellState.set, CellState.get, hpair v t hconv]

/-- Closed instance of the round-trip law: setting the dynamic value `5` on
an `Int` cell with the identity conversion pair and reading it back. -/
theorem C4_set_get_roundtrip_witness :
    (intItemFO.set some (CellState.value 0) (5 : Int) none).1 = Except.ok () ∧
    intItemFO.get some
        ((intItemFO.set some (CellState.value 0) (5 : Int) none).2) =
      PanicOr.ok (Except.ok (5 : Int)) :=
  C4_set_get_roundtrip intItemFO some some (CellState.value 0) 5 5
    (fun _ _ h => h.symm) rfl

/-- C5: the plain no-animation `set` and `set_field` fail exactly when the
dynamic value does not convert into the concrete field type; on failure the
target item is returned unchanged; on success the converted value is stored
(for `set_field`, reading the field back yields it). -/
theorem C5_conversion_failure_policy {Item T Value : Type}
    (self : FieldOffset Item T) (selfF : FieldOffsetPlain Item T)
    (vToT : Value → Option T) (item : Item) (v : Value) :
    ((self.set vToT item v none).1 = Except.error () ↔ vToT v = none) ∧
    ((selfF.set_field vToT item v).1 = Except.error () ↔ vToT v = none) ∧
    (vToT v = none →
      (self.set vToT item v none).2 = item ∧
      (selfF.set_field vToT item v).2 = item) ∧
    (∀ t : T, vToT v = some t →
      (self.set vToT item v none).2 =
        self.updateCell item (CellState.value t) ∧
      (selfF.set_field vToT item v).2 = selfF.write item t ∧
      selfF.read (selfF.set_field vToT item v).2 = t) := by
  cases h : vToT v <;>
    simp [FieldOffset.set, FieldOffsetPlain.set_field, h, CellState.set,
      selfF.read_write]

/-- C6: every accepted `set_binding` installs the converting closure
`wrapBinding`, which panics (fails fatally, with the `expect` message) when
the binding produces a non-convertible value and yields the converted value
otherwise; attachment itself succeeds for every binding — no conversion
error is ever returned at attachment time. -/
theorem C6_binding_misconversion_panics {Item T Value : Type}
    (self : FieldOffset Item T) (selfW : MaybeAnimatedPropertyInfoWrapper Item T)
    (ip : InterpolatedPropertyValue T) (vToT : Value → Option T) (item : Item)
    (binding : Unit → Value) :
    ((self.set_binding vToT item binding AnimatedBindingKind.NotAnimated).1 =
      Except.ok ()) ∧
    (∀ k : AnimatedBindingKind,
      (selfW.set_binding ip vToT item binding k).1 = Except.ok ()) ∧
    ((self.set_binding vToT item binding AnimatedBindingKind.NotAnimated).2 =
      self.updateCell item (CellState.binding (wrapBinding vToT binding))) ∧
    (∀ u : Unit, vToT (binding u) = none →
      wrapBinding vToT binding u =
        PanicOr.panic "binding was of the wrong type") ∧
    (∀ (u : Unit) (t : T), vToT (binding u) = some t →
      wrapBinding vToT binding u = PanicOr.ok t) := by
  refine ⟨rfl, fun k => ?_, rfl, fun u hu => ?_, fun u t ht => ?_⟩
  · cases k with
    | NotAnimated => rfl
    | Animation a => rfl
    | Transition tr => rfl
  · simp [wrapBinding, hu]
  · simp [wrapBinding, ht]

/-- C7 fails as stated: the error type of every accessor is the unit type
`()`, so the two error kinds are not distinguishable from the result.  At
concrete inputs on a `Nat` cell, a `set` failing because the value `-1` does
not convert and a `set` failing because an animation descriptor was supplied
to the plain implementation return the very same error value. -/
theorem C7_counterexample_indistinguishable_errors :
    (natItemFO.set intToNatConv (CellState.value 0) (-1 : Int) none).1 =
      Except.error () ∧
    intToNatConv (-1) = none ∧
    (natItemFO.set intToNatConv (CellState.value 0) (5 : Int)
      (some (PropertyAnimation.mk 0))).1 = Except.error () ∧
    intToNatConv 5 = some 5 ∧
    (natItemFO.set intToNatConv (CellState.value 0) (-1 : Int) none).1 =
      (natItemFO.set intToNatConv (CellState.value 0) (5 : Int)
        (some (PropertyAnimation.mk 0))).1 :=
  ⟨rfl, rfl, rfl, rfl, rfl⟩

/-- C7 amended: every fallible accessor operation reports failure — of
either kind — as the recoverable result value `Err(())` rather than
aborting; the unit error carries no indication of which of the two kinds
(conversion or animation) occurred. -/
theorem C7_amended_unit_error_results {Item T Value : Type}
    (self : FieldOffset Item T) (selfF : FieldOffsetPlain Item T)
    (vToT : Value → Option T) (tToV : T → Option Value) (item : Item)
    (v : Value) (t : T) (binding : Unit → Value) :
    (∀ a : PropertyAnimation,
      (self.set vToT item v (some a)).1 = Except.error ()) ∧
    (vToT v = none → (self.set vToT item v none).1 = Except.error ()) ∧
    (vToT v = none → (selfF.set_field vToT item v).1 = Except.error ()) ∧
    (∀ k : AnimatedBindingKind, k ≠ AnimatedBindingKind.NotAnimated →
      (self.set_binding vToT item binding k).1 = Except.error ()) ∧
    (tToV t = none →
      self.get tToV (self.updateCell item (CellState.value t)) =
        PanicOr.ok (Except.error ())) := by
  refine ⟨fun a => rfl, fun hv => ?_, fun hv => ?_, fun k hk => ?_, fun ht => ?_⟩
  · simp [FieldOffset.set, hv]
  · simp [FieldOffsetPlain.set_field, hv]
  · cases k with
    | NotAnimated => exact absurd rfl hk
    | Animation a => rfl
    | Transition tr => rfl
  · simp [FieldOffset.get, self.apply_update, CellState.get, ht]

/-- C8 fails as stated: a direct `set` call cannot even be handed a
`Transition` descriptor — its animation parameter is `Option
PropertyAnimation` — and reducing a `Transition` descriptor to that
parameter through `as_animation` yields `None`, after which the
animation-capable `set` performs the plain instantaneous write and succeeds
instead of rejecting the call. -/
theorem C8_counterexample_transition_set_succeeds :
    (AnimatedBindingKind.Transition transitionSupplier).as_animation = none ∧
    (intWrap.set intInterp some (CellState.value 0) (5 : Int)
      ((AnimatedBindingKind.Transition transitionSupplier).as_animation)).1 =
      Except.ok () ∧
    (intWrap.set intInterp some (CellState.value 0) (5 : Int)
      ((AnimatedBindingKind.Transition transitionSupplier).as_animation)).1 ≠
      Except.error () :=
  ⟨rfl, rfl, fun h => Except.noConfusion h⟩

/-- C8 amended: `set`'s animation parameter cannot express a `Transition`
descriptor; a `Transition` reduced to that parameter via `as_animation`
becomes `None`, so the animation-capable `set` coincides with the plain
no-animation write (it is not rejected with the plain path's animation
error). -/
theorem C8_amended_transition_set_is_plain_write {Item T Value : Type}
    (self : MaybeAnimatedPropertyInfoWrapper Item T)
    (ip : InterpolatedPropertyValue T) (vToT : Value → Option T) (item : Item)
    (v : Value) (tr : Unit → PropertyAnimation × Instant) :
    (AnimatedBindingKind.Transition tr).as_animation = none ∧
    self.set ip vToT item v ((AnimatedBindingKind.Transition tr).as_animation) =
      self.fo.set vToT item v none :=
  ⟨rfl, rfl⟩

/-- C9: the `ValueType` trait universe is the closed set of exactly sixteen
distinct concrete field types, and every implementor carries a fallible
conversion into, and a fallible conversion from, each of them, so the
conversion relation used by the accessors is defined for every
(shape, concrete type) pair of the universe. -/
theorem C9_value_type_conversion_universe (Value : Type)
    (inst : ValueType Value) :
    declaredConcreteTys.length = 16 ∧ declaredConcreteTys.Nodup ∧
    (∀ c : ConcreteTy, c ∈ declaredConcreteTys) ∧
    (∀ c : ConcreteTy,
      ∃ (toC : Value → Option c.interp) (fromC : c.interp → Option Value),
        toC = inst.tryIntoConcrete c ∧ fromC = inst.tryFromConcrete c) := by
  refine ⟨rfl, by decide, fun c => ?_,
    fun c => ⟨inst.tryIntoConcrete c, inst.tryFromConcrete c, rfl, rfl⟩⟩
  cases c <;> simp [declaredConcreteTys]

/-- C10: `as_animation` returns `some a` exactly on `Animation a`, and
returns `none` on `NotAnimated` and on `Transition` (whose supplier is
discarded). -/
theorem C10_as_animation_characterization (a : PropertyAnimation)
    (tr : Unit → PropertyAnimation × Instant) :
    AnimatedBindingKind.NotAnimated.as_animation = none ∧
    (AnimatedBindingKind.Animation a).as_animation = some a ∧
    (AnimatedBindingKind.Transition tr).as_animation = none ∧
    (∀ (k : AnimatedBindingKind) (b : PropertyAnimation),
      k.as_animation = some b ↔ k = AnimatedBindingKind.Animation b) := by
  refine ⟨rfl, rfl, rfl, fun k b => ?_⟩
  cases k with
  | NotAnimated => simp [AnimatedBindingKind.as_animation]
  | Animation c => simp [AnimatedBindingKind.as_animation]
  | Transition t2 => simp [AnimatedBindingKind.as_animation]

end Rtti

